import Mathlib

/-!
Verification development for the offline venue-recommendation service
(`rag.py`, `agents.py`, `main.py`).  The scoring pipeline is embedded as
pure Lean functions over exact rationals; the vector index and the
sentiment analyzer are external collaborators and are passed in as
oracle functions.  String fields that only feed the human-readable
explanation collaborator (reasons, LLM captions) carry no scoring
information and are omitted from the embedded records.
-/

/-- Python `int()` applied to a rational: truncation toward zero. -/
def pyInt (q : ℚ) : ℤ :=
  if q < 0 then -⌊-q⌋ else ⌊q⌋

/-- Round a rational to the nearest integer, ties to even
(the rounding used by Python `round`). -/
def roundHE (q : ℚ) : ℤ :=
  if q - ⌊q⌋ < 1/2 then ⌊q⌋
  else if 1/2 < q - ⌊q⌋ then ⌊q⌋ + 1
  else if ⌊q⌋ % 2 = 0 then ⌊q⌋ else ⌊q⌋ + 1

/-- Python `round(q, 1)`: round to one decimal place, ties to even. -/
def pyRound1 (q : ℚ) : ℚ :=
  (roundHE (10 * q) : ℚ) / 10

theorem roundHE_ge_floor (q : ℚ) : ⌊q⌋ ≤ roundHE q := by
  unfold roundHE; split_ifs <;> omega

theorem roundHE_le_floor_add_one (q : ℚ) : roundHE q ≤ ⌊q⌋ + 1 := by
  unfold roundHE; split_ifs <;> omega

theorem roundHE_intCast (n : ℤ) : roundHE (n : ℚ) = n := by
  unfold roundHE
  simp only [Int.floor_intCast, sub_self]
  norm_num

theorem roundHE_mono {q r : ℚ} (h : q ≤ r) : roundHE q ≤ roundHE r := by
  rcases eq_or_lt_of_le (Int.floor_mono h) with heq | hlt
  · have hq : ((⌊q⌋ : ℤ) : ℚ) = ((⌊r⌋ : ℤ) : ℚ) := by exact_mod_cast heq
    have hfrac : q - ⌊q⌋ ≤ r - ⌊r⌋ := by rw [← hq]; linarith
    unfold roundHE
    split_ifs <;> first | omega | linarith
  · have h1 := roundHE_le_floor_add_one q
    have h2 := roundHE_ge_floor r
    omega

theorem pyRound1_mono {q r : ℚ} (h : q ≤ r) : pyRound1 q ≤ pyRound1 r := by
  unfold pyRound1
  have h10 : 10 * q ≤ 10 * r := by linarith
  have hz := roundHE_mono h10
  have hc : ((roundHE (10 * q) : ℤ) : ℚ) ≤ ((roundHE (10 * r) : ℤ) : ℚ) := by
    exact_mod_cast hz
  linarith

theorem pyRound1_intCast (n : ℤ) : pyRound1 (n : ℚ) = n := by
  unfold pyRound1
  have h : (10 : ℚ) * (n : ℚ) = ((10 * n : ℤ) : ℚ) := by push_cast; ring
  rw [h, roundHE_intCast]
  push_cast
  exact mul_div_cancel_left₀ _ (by norm_num)

theorem pyInt_of_nonneg {q : ℚ} (h : 0 ≤ q) : pyInt q = ⌊q⌋ :=
  if_neg (not_lt.2 h)

theorem max_zero_pyInt (q : ℚ) : max 0 (pyInt q) = max 0 ⌊q⌋ := by
  unfold pyInt
  split_ifs with h
  · have hfq : ⌊q⌋ < 0 := Int.floor_lt.2 (by exact_mod_cast h)
    have hfn : 0 ≤ ⌊-q⌋ := Int.le_floor.2 (by push_cast; linarith)
    omega
  · rfl

theorem pyInt_le_of_le_intCast {q : ℚ} {n : ℤ} (h : q ≤ (n : ℚ)) : pyInt q ≤ n := by
  unfold pyInt
  split_ifs with hq
  · rw [Int.floor_neg, neg_neg]
    exact Int.ceil_le.2 h
  · calc ⌊q⌋ ≤ ⌊(n : ℚ)⌋ := Int.floor_mono h
    _ = n := Int.floor_intCast n

/-! ### Data model (`main.py` datasets, `rag.py` documents) -/

/-- An event request from `current_requests.json`, with the fields the
pipeline reads (`main.py` / `agents.py`); a field absent from the JSON
record is modelled by the default the code substitutes via `.get`. -/
structure EventRequest where
  event_id : String
  attendee_count : ℕ
  duration_days : ℕ
  budget : ℚ
  required_amenities : Finset String
  preferred_amenities : Finset String
  special_requirements : Finset String
  location_preference : Option String
deriving DecidableEq

/-- A venue record from `venues.json`. -/
structure Venue where
  venue_id : String
  name : String
  max_capacity : ℕ
  daily_rate : ℚ
  amenities : Finset String
  features : Finset String
  region : Option String
deriving DecidableEq

/-- A historical event from `event_history.json` (as decoded from the
indexed document in `RAG.retrieve`). -/
structure HistoricalEvent where
  event_id : String
  venue_id : Option String
  overall_satisfaction : ℚ
  would_rebook : Bool
  positive_feedback : List String
  negative_feedback : List String
deriving DecidableEq

/-- One element of the list returned by `RAG.retrieve`. -/
structure Candidate where
  historical_event : HistoricalEvent
  similarity_score : ℚ
deriving DecidableEq

/-! ### `rag.py` — similarity retrieval

`RAG.retrieve` embeds the request, asks the Chroma collection for
`top_n * 2` nearest documents, and converts each returned cosine
distance to a similarity.  The vector index is external state: it is
modelled as an oracle `query` mapping the requested result count
`n_results` to the returned `(decoded document, distance)` pairs. -/

/-- The distance-to-similarity conversion on one retrieved result:
`similarity = max(0, round(100 * (1 - dist), 1))` (`rag.py` line 98). -/
def similarityOfDistance (dist : ℚ) : ℚ :=
  max 0 (pyRound1 (100 * (1 - dist)))

structure RAG where
  top_n : ℕ

/-- `RAG.retrieve` (`rag.py` lines 70-103): query the index for
`top_n * 2` results and convert every one of them, preserving the
index's order.  The query embedding computed from the request affects
only which results the oracle returns, so it is internal to `query`. -/
def RAG.retrieve (r : RAG) (query : ℕ → List (HistoricalEvent × ℚ)) : List Candidate :=
  (query (r.top_n * 2)).map (fun p => ⟨p.1, similarityOfDistance p.2⟩)

/-! ### `agents.py` — criterion agents

Each agent also builds a reason string and asks the local LLM for a
caption; neither influences any score, so only the score computation is
embedded.  The sentiment analyzer used by `FeedbackAgent` is external
and is passed as an oracle `polarity` (VADER's compound score). -/

/-- `CapacityAgent.analyze` (`agents.py` lines 29-43), score component. -/
def CapacityAgent.analyze (event : EventRequest) (venue : Venue) : ℤ :=
  let max_cap := venue.max_capacity
  let attendees := event.attendee_count
  if max_cap = 0 then 0
  else max 0 (pyInt (100 - (attendees : ℚ) / (max_cap : ℚ) * 100))

/-- `AmenityAgent.analyze` (`agents.py` lines 51-67), score component. -/
def AmenityAgent.analyze (event : EventRequest) (venue : Venue) : ℤ :=
  let req := event.required_amenities
  let pref := event.preferred_amenities
  let avail := venue.amenities
  pyInt (((req ∩ avail).card : ℚ) / ((max req.card 1 : ℕ) : ℚ) * 70 +
         ((pref ∩ avail).card : ℚ) / ((max pref.card 1 : ℕ) : ℚ) * 30)

/-- The first summand of the `AmenityAgent` score expression: the
required-amenity component `len(matched_req) / max(len(req), 1) * 70`. -/
def amenityRequiredComponent (event : EventRequest) (venue : Venue) : ℚ :=
  ((event.required_amenities ∩ venue.amenities).card : ℚ) /
    ((max event.required_amenities.card 1 : ℕ) : ℚ) * 70

/-- `LocationAgent.analyze` (`agents.py` lines 70-79), score component.
Python compares `venue.get("region") == event.get("location_preference")`,
where two absent values (`None == None`) compare equal. -/
def LocationAgent.analyze (event : EventRequest) (venue : Venue) : ℤ :=
  if venue.region = event.location_preference then 100 else 50

/-- `CostAgent.analyze` (`agents.py` lines 82-97), score component. -/
def CostAgent.analyze (event : EventRequest) (venue : Venue) : ℤ :=
  let budget := event.budget
  let est := venue.daily_rate * (event.duration_days : ℚ)
  if budget = 0 then 0
  else min 100 (pyInt (budget / max est 1 * 100))

/-- `SpecialRequirementAgent.analyze` (`agents.py` lines 105-115),
score component. -/
def SpecialRequirementAgent.analyze (event : EventRequest) (venue : Venue) : ℤ :=
  let reqs := event.special_requirements
  let avail := venue.amenities ∪ venue.features
  pyInt (((reqs ∩ avail).card : ℚ) / ((max reqs.card 1 : ℕ) : ℚ) * 100)

/-- `FeedbackAgent.analyze` (`agents.py` lines 118-133): sum the scaled
compound sentiment of every comment in both buckets, clamp to
`[-20, 20]`. -/
def FeedbackAgent.analyze (polarity : String → ℚ) (hist : HistoricalEvent) : ℚ :=
  let s := (hist.positive_feedback.map (fun c => polarity c * 5)).sum +
           (hist.negative_feedback.map (fun c => polarity c * 5)).sum
  max (-20) (min 20 s)

/-! ### `main.py` — hybrid ranking endpoint -/

/-- The three `HTTPException(404, ...)` exits of `recommend`
(`main.py` lines 70, 75, 128), distinguished by their detail message. -/
inductive RecError where
  | requestNotFound
  | noSimilarEvents
  | noSuitableVenues
deriving DecidableEq

/-- One entry of the `recommendations` list built by `recommend`
(`main.py` lines 110-125).  The `analysis` sub-dict is flattened to its
score-bearing fields; the LLM caption `rag_summary` and the per-agent
reason strings are presentation-only and omitted. -/
structure Recommendation where
  venue_id : String
  venue_name : String
  ranking_score : ℚ
  capacity_score : ℤ
  amenity_score : ℤ
  location_score : ℤ
  cost_score : ℤ
  special_score : ℤ
  feedback_adjustment : ℚ
  rag_similarity_score : ℚ
  historical_event : HistoricalEvent
deriving DecidableEq

/-- The body of the per-candidate loop of `recommend`
(`main.py` lines 85-125), after the venue has been resolved. -/
def mkRecommendation (polarity : String → ℚ) (request : EventRequest)
    (venue : Venue) (item : Candidate) : Recommendation :=
  let cap := CapacityAgent.analyze request venue
  let ame := AmenityAgent.analyze request venue
  let loc := LocationAgent.analyze request venue
  let cst := CostAgent.analyze request venue
  let spc := SpecialRequirementAgent.analyze request venue
  let fb_adj := FeedbackAgent.analyze polarity item.historical_event
  let agent_score : ℚ :=
    (cap : ℚ) * 0.25 + (ame : ℚ) * 0.20 + (loc : ℚ) * 0.15 +
    (cst : ℚ) * 0.25 + (spc : ℚ) * 0.15
  let rag_score := item.similarity_score
  let hybrid_score := 0.45 * agent_score + 0.45 * rag_score + 0.10 * fb_adj
  { venue_id := venue.venue_id
    venue_name := venue.name
    ranking_score := pyRound1 hybrid_score
    capacity_score := cap
    amenity_score := ame
    location_score := loc
    cost_score := cst
    special_score := spc
    feedback_adjustment := fb_adj
    rag_similarity_score := rag_score
    historical_event := item.historical_event }

/-- Venue resolution for one candidate (`main.py` line 81):
`next((v for v in venues if v["venue_id"] == hist_event.get("venue_id")), None)`. -/
def resolveVenue (venues : List Venue) (item : Candidate) : Option Venue :=
  venues.find? (fun v => some v.venue_id == item.historical_event.venue_id)

/-- The candidate-scoring loop of `recommend` (`main.py` lines 78-125):
candidates whose venue does not resolve are skipped (`continue`),
the rest are scored in retrieval order. -/
def scoreCandidates (polarity : String → ℚ) (venues : List Venue)
    (request : EventRequest) (similar : List Candidate) : List Recommendation :=
  similar.filterMap (fun item =>
    (resolveVenue venues item).map (fun venue => mkRecommendation polarity request venue item))

/-- The descending-by-`ranking_score` order used by
`recommendations.sort(key=lambda x: x["ranking_score"], reverse=True)`. -/
def byScoreDesc (a b : Recommendation) : Prop :=
  b.ranking_score ≤ a.ranking_score

instance : DecidableRel byScoreDesc := fun a b =>
  inferInstanceAs (Decidable (b.ranking_score ≤ a.ranking_score))

instance : IsTotal Recommendation byScoreDesc :=
  ⟨fun a b => le_total b.ranking_score a.ranking_score⟩

instance : IsTrans Recommendation byScoreDesc :=
  ⟨fun _ _ _ h1 h2 => le_trans h2 h1⟩

/-- The `/api/venues/recommend` handler `recommend` (`main.py` lines
66-132).  `queryOf` is the vector index oracle per request (the handler
constructs `RAG(top_n=6)` at startup); Python's stable
`list.sort(reverse=True)` is insertion sort on `byScoreDesc`;
`[:top_n]` is `List.take`. -/
def recommend (polarity : String → ℚ) (venues : List Venue)
    (current_requests : List EventRequest)
    (queryOf : EventRequest → ℕ → List (HistoricalEvent × ℚ))
    (event_id : String) (top_n : ℕ) : Except RecError (List Recommendation) :=
  match current_requests.find? (fun r => r.event_id == event_id) with
  | none => .error .requestNotFound
  | some request =>
    let similar := (RAG.mk 6).retrieve (queryOf request)
    if similar.isEmpty then .error .noSimilarEvents
    else
      let recs := scoreCandidates polarity venues request similar
      if recs.isEmpty then .error .noSuitableVenues
      else .ok ((recs.insertionSort byScoreDesc).take top_n)

/-! ### Shared bound lemmas -/

theorem pyInt_bounds {x : ℚ} (h0 : 0 ≤ x) (h1 : x ≤ 100) :
    0 ≤ pyInt x ∧ pyInt x ≤ 100 := by
  constructor
  · rw [pyInt_of_nonneg h0]
    exact Int.le_floor.2 (by exact_mod_cast h0)
  · exact pyInt_le_of_le_intCast (by exact_mod_cast h1)

theorem card_ratio_bounds (s t : Finset String) :
    0 ≤ ((s ∩ t).card : ℚ) / ((max s.card 1 : ℕ) : ℚ) ∧
      ((s ∩ t).card : ℚ) / ((max s.card 1 : ℕ) : ℚ) ≤ 1 := by
  have hpos : (0 : ℚ) < ((max s.card 1 : ℕ) : ℚ) := by
    exact_mod_cast Nat.lt_of_lt_of_le Nat.zero_lt_one (le_max_right s.card 1)
  constructor
  · positivity
  · rw [div_le_one hpos]
    exact_mod_cast le_trans (Finset.card_le_card Finset.inter_subset_left)
      (le_max_left s.card 1)

/-! ### Concrete fixtures used by witnesses and counterexamples -/

def baseRequest : EventRequest :=
  { event_id := "E0", attendee_count := 0, duration_days := 1, budget := 0,
    required_amenities := ∅, preferred_amenities := ∅, special_requirements := ∅,
    location_preference := none }

def baseVenue : Venue :=
  { venue_id := "V0", name := "Base", max_capacity := 0, daily_rate := 0,
    amenities := ∅, features := ∅, region := none }

def att1Request : EventRequest := { baseRequest with attendee_count := 1 }

def att2Request : EventRequest := { baseRequest with attendee_count := 2 }

def att100Request : EventRequest := { baseRequest with attendee_count := 100 }

def cap100Venue : Venue := { baseVenue with max_capacity := 100 }

def cap200Venue : Venue := { baseVenue with max_capacity := 200 }

/-! ### C6 — location agent -/

/-- Formalisation of the claim's location rule in the claim's own words:
region and preference match only when both are present (non-null) and
equal as strings. -/
def claimLocationScore (event : EventRequest) (venue : Venue) : ℤ :=
  match venue.region, event.location_preference with
  | some a, some b => if a = b then 100 else 50
  | _, _ => 50

/-- C6 counterexample: with both `region` and `location_preference`
absent, the code scores 100 (Python `None == None` is `True`), while the
claim's never-match-on-null rule demands 50. -/
theorem location_null_match_counterexample :
    LocationAgent.analyze baseRequest baseVenue = 100 ∧
      claimLocationScore baseRequest baseVenue = 50 := by
  constructor <;> rfl

/-- C6 (amended): the location score is 100 exactly when the venue
region equals the request preference as optional values — two absent
values compare equal and match — and the score is always 50 or 100. -/
theorem location_score_amended (event : EventRequest) (venue : Venue) :
    (venue.region = event.location_preference ↔ LocationAgent.analyze event venue = 100)
      ∧ (LocationAgent.analyze event venue = 50 ∨ LocationAgent.analyze event venue = 100) := by
  unfold LocationAgent.analyze
  by_cases h : venue.region = event.location_preference
  · rw [if_pos h]
    exact ⟨⟨fun _ => rfl, fun _ => h⟩, Or.inr rfl⟩
  · rw [if_neg h]
    exact ⟨⟨fun hr => absurd hr h, fun h50 => by norm_num at h50⟩, Or.inl rfl⟩

/-! ### C7 — empty requirement sets -/

/-- C7: an empty `required_amenities` set makes the required component
of the amenity score 0 (not 70); an empty `special_requirements` set
makes the special-requirements score 0 (not 100); both scores always
lie in [0, 100]. -/
theorem empty_requirements_score_zero (event : EventRequest) (venue : Venue) :
    (event.required_amenities = ∅ → amenityRequiredComponent event venue = 0)
      ∧ (event.special_requirements = ∅ → SpecialRequirementAgent.analyze event venue = 0)
      ∧ (0 ≤ AmenityAgent.analyze event venue ∧ AmenityAgent.analyze event venue ≤ 100)
      ∧ (0 ≤ SpecialRequirementAgent.analyze event venue ∧
          SpecialRequirementAgent.analyze event venue ≤ 100) := by
  obtain ⟨hr0, hr1⟩ := card_ratio_bounds event.required_amenities venue.amenities
  obtain ⟨hp0, hp1⟩ := card_ratio_bounds event.preferred_amenities venue.amenities
  obtain ⟨hs0, hs1⟩ := card_ratio_bounds event.special_requirements
    (venue.amenities ∪ venue.features)
  refine ⟨?_, ?_, ?_, ?_⟩
  · intro h
    simp [amenityRequiredComponent, h]
  · intro h
    simp [SpecialRequirementAgent.analyze, h, pyInt]
  · exact pyInt_bounds (by positivity) (by nlinarith)
  · exact pyInt_bounds (by positivity) (by nlinarith)

/-- C7 witness at a concrete request with empty requirement sets. -/
theorem empty_requirements_witness :
    amenityRequiredComponent baseRequest baseVenue = 0 ∧
      SpecialRequirementAgent.analyze baseRequest baseVenue = 0 :=
  ⟨(empty_requirements_score_zero baseRequest baseVenue).1 rfl,
   (empty_requirements_score_zero baseRequest baseVenue).2.1 rfl⟩

/-! ### C8 — capacity agent -/

/-- Formalisation of the claim's capacity formula in the claim's own
words: `clamp(0, 100 - round(utilization * 100))` for positive capacity,
0 otherwise. -/
def claimCapacityScore (attendees max_cap : ℕ) : ℤ :=
  if max_cap = 0 then 0
  else max 0 (100 - roundHE ((attendees : ℚ) / (max_cap : ℚ) * 100))

/-- C8 counterexample: at 1 attendee in a 200-person venue the code
truncates `100 - 0.5` to 99, while the claim's
`clamp(0, 100 - round(utilization*100))` yields 100; moreover 2
attendees also score 99, so the score does not strictly decrease as
utilization increases past 0. -/
theorem capacity_round_counterexample :
    CapacityAgent.analyze att1Request cap200Venue = 99 ∧
      claimCapacityScore 1 200 = 100 ∧
      CapacityAgent.analyze att2Request cap200Venue = 99 := by
  refine ⟨?_, ?_, ?_⟩ <;>
    norm_num [CapacityAgent.analyze, claimCapacityScore, att1Request, att2Request,
      cap200Venue, baseRequest, baseVenue, pyInt, roundHE]

/-- C8 (amended): for `max_capacity = 0` the score is 0 regardless of
attendees; for positive capacity the score is
`max 0 ⌊100 - utilization*100⌋` (truncation, not rounding), it is
non-increasing (not strictly decreasing) as the attendee count grows,
clamped at 0, and always lies in [0, 100]; 100 attendees at capacity
100 score 0 and 0 attendees at capacity 200 score 100. -/
theorem capacity_score_amended (event : EventRequest) (venue : Venue) :
    (venue.max_capacity = 0 → CapacityAgent.analyze event venue = 0)
      ∧ (0 < venue.max_capacity →
          CapacityAgent.analyze event venue =
            max 0 ⌊(100 : ℚ) - (event.attendee_count : ℚ) / (venue.max_capacity : ℚ) * 100⌋)
      ∧ (∀ event₂ : EventRequest, event.attendee_count ≤ event₂.attendee_count →
          CapacityAgent.analyze event₂ venue ≤ CapacityAgent.analyze event venue)
      ∧ (0 ≤ CapacityAgent.analyze event venue ∧ CapacityAgent.analyze event venue ≤ 100) := by
  refine ⟨fun h => by simp [CapacityAgent.analyze, h], ?_, ?_, ?_⟩
  · intro hpos
    unfold CapacityAgent.analyze
    rw [if_neg (Nat.pos_iff_ne_zero.1 hpos), max_zero_pyInt]
  · intro event₂ hle
    unfold CapacityAgent.analyze
    by_cases h0 : venue.max_capacity = 0
    · simp [h0]
    · rw [if_neg h0, if_neg h0, max_zero_pyInt, max_zero_pyInt]
    
      have hc : (0 : ℚ) < (venue.max_capacity : ℚ) := by
        exact_mod_cast Nat.pos_of_ne_zero h0
      have harg : (100 : ℚ) - (event₂.attendee_count : ℚ) / (venue.max_capacity : ℚ) * 100 ≤
          100 - (event.attendee_count : ℚ) / (venue.max_capacity : ℚ) * 100 := by
        have hcast : (event.attendee_count : ℚ) ≤ (event₂.attendee_count : ℚ) := by
          exact_mod_cast hle
        have hdiv : (event.attendee_count : ℚ) / (venue.max_capacity : ℚ) ≤
            (event₂.attendee_count : ℚ) / (venue.max_capacity : ℚ) := by gcongr
        linarith
      exact max_le_max (le_refl 0) (Int.floor_mono harg)
  · unfold CapacityAgent.analyze
    by_cases h0 : venue.max_capacity = 0
    · simp [h0]
    · rw [if_neg h0]
      have hc : (0 : ℚ) < (venue.max_capacity : ℚ) := by
        exact_mod_cast Nat.pos_of_ne_zero h0
      have harg : (100 : ℚ) - (event.attendee_count : ℚ) / (venue.max_capacity : ℚ) * 100 ≤ 100 := by
        have : (0 : ℚ) ≤ (event.attendee_count : ℚ) / (venue.max_capacity : ℚ) * 100 := by positivity
        linarith
      exact ⟨le_max_left 0 _,
        max_le (by norm_num) (pyInt_le_of_le_intCast (by exact_mod_cast harg))⟩

/-- C8 witness: the claim's two scenarios hold, a zero-capacity venue
scores 0, and the score is non-increasing at a concrete pair of
attendee counts. -/
theorem capacity_amended_witness :
    CapacityAgent.analyze att100Request cap100Venue = 0 ∧
      CapacityAgent.analyze baseRequest cap200Venue = 100 ∧
      CapacityAgent.analyze att1Request baseVenue = 0 ∧
      CapacityAgent.analyze att2Request cap200Venue ≤
        CapacityAgent.analyze att1Request cap200Venue :=
  ⟨by norm_num [CapacityAgent.analyze, att100Request, cap100Venue, baseRequest, baseVenue, pyInt],
   by norm_num [CapacityAgent.analyze, cap200Venue, baseRequest, baseVenue, pyInt],
   (capacity_score_amended att1Request baseVenue).1 rfl,
   (capacity_score_amended att1Request cap200Venue).2.2.1 att2Request (by norm_num [att1Request,
     att2Request, baseRequest])⟩

/-! ### C9 — feedback scorer -/

/-- Concrete feedback fixtures. -/
def feedbackHist : HistoricalEvent :=
  { event_id := "H1", venue_id := some "V0", overall_satisfaction := 3,
    would_rebook := true, positive_feedback := ["great"],
    negative_feedback := ["bad"] }

def feedbackHistMerged : HistoricalEvent :=
  { feedbackHist with positive_feedback := ["great", "bad"], negative_feedback := [] }

def feedbackHistEmpty : HistoricalEvent :=
  { feedbackHist with positive_feedback := [], negative_feedback := [] }

/-- C9: the feedback adjustment is the clamp to [-20, 20] of the sum of
the scaled polarities of all comments, both buckets summed identically
(moving every comment into the positive bucket leaves the adjustment
unchanged), and empty feedback yields exactly 0. -/
theorem feedback_adjustment_clamped (polarity : String → ℚ) (hist : HistoricalEvent) :
    (-20 ≤ FeedbackAgent.analyze polarity hist ∧ FeedbackAgent.analyze polarity hist ≤ 20)
      ∧ (hist.positive_feedback = [] → hist.negative_feedback = [] →
          FeedbackAgent.analyze polarity hist = 0)
      ∧ (∀ hist₂ : HistoricalEvent,
          hist₂.positive_feedback = hist.positive_feedback ++ hist.negative_feedback →
          hist₂.negative_feedback = [] →
          FeedbackAgent.analyze polarity hist₂ = FeedbackAgent.analyze polarity hist) := by
  refine ⟨⟨le_max_left _ _, max_le (by norm_num) (min_le_left _ _)⟩, ?_, ?_⟩
  · intro hp hn
    simp [FeedbackAgent.analyze, hp, hn]
  · intro hist₂ hp hn
    unfold FeedbackAgent.analyze
    rw [hp, hn, List.map_append, List.sum_append]
    simp

/-- C9 witness: bucket-merging invariance and the empty-feedback case
at concrete feedback lists with a concrete polarity oracle. -/
theorem feedback_adjustment_witness :
    FeedbackAgent.analyze (fun _ => 1) feedbackHistMerged =
        FeedbackAgent.analyze (fun _ => 1) feedbackHist ∧
      FeedbackAgent.analyze (fun _ => 1) feedbackHistEmpty = 0 :=
  ⟨(feedback_adjustment_clamped (fun _ => 1) feedbackHist).2.2 feedbackHistMerged rfl rfl,
   (feedback_adjustment_clamped (fun _ => 1) feedbackHistEmpty).2.1 rfl rfl⟩

/-! ### C1/C2/C3 — retrieval fixtures -/

def histGoodOutcome : HistoricalEvent :=
  { event_id := "H2", venue_id := some "V0", overall_satisfaction := 5,
    would_rebook := true, positive_feedback := [], negative_feedback := [] }

def histBadOutcome : HistoricalEvent :=
  { event_id := "H3", venue_id := some "V0", overall_satisfaction := 5/2,
    would_rebook := false, positive_feedback := [], negative_feedback := [] }

/-- An index oracle returning (in ascending-distance order) a
poor-outcome event at distance 0.2 (raw similarity 80) and a
good-outcome event at distance 0.21 (raw similarity 79), truncated to
the requested result count as Chroma does. -/
def penaltyQuery : ℕ → List (HistoricalEvent × ℚ) :=
  fun n => ((histBadOutcome, 1/5) :: (histGoodOutcome, 21/100) :: []).take n

theorem penaltyQuery_length (n : ℕ) : (penaltyQuery n).length ≤ n := by
  simp only [penaltyQuery, List.length_take]
  exact min_le_left _ _

theorem penaltyQuery_sorted (n : ℕ) :
    (penaltyQuery n).Pairwise (fun p q => p.2 ≤ q.2) := by
  refine List.Pairwise.sublist (List.take_sublist n _) ?_
  simp only [List.pairwise_cons, List.mem_singleton, List.mem_cons]
  refine ⟨?_, by simp⟩
  intro q hq
  rcases hq with h | h
  · subst h; norm_num
  · simp at h

/-! ### C1 — no outcome penalty in retrieval -/

/-- Formalisation of the claim's outcome-penalised ranking score:
`raw_similarity * outcome_multiplier * (overall_satisfaction / 5)` with
multiplier 1 for `would_rebook` and 0.5 otherwise. -/
def claimAdjustedScore (c : Candidate) : ℚ :=
  c.similarity_score * (if c.historical_event.would_rebook then 1 else 1/2) *
    (c.historical_event.overall_satisfaction / 5)

/-- C1 counterexample: `RAG.retrieve` never reorders by the claimed
adjusted score.  For an index answer (satisfying the index contract:
bounded length, ascending distances) whose first hit has raw similarity
80 but adjusted score 20 (`would_rebook = false`, satisfaction 2.5) and
whose second hit has raw similarity 79 with adjusted score 79, the
returned candidates are not in descending adjusted-score order. -/
theorem retrieval_penalty_counterexample :
    ¬ (∀ query : ℕ → List (HistoricalEvent × ℚ),
        (∀ n, (query n).length ≤ n) →
        (∀ n, (query n).Pairwise (fun p q => p.2 ≤ q.2)) →
        ((RAG.mk 6).retrieve query).Pairwise
          (fun a b => claimAdjustedScore b ≤ claimAdjustedScore a)) := by
  intro h
  have hc := h penaltyQuery penaltyQuery_length penaltyQuery_sorted
  simp only [RAG.retrieve, penaltyQuery, List.take, List.map_cons, List.map_nil,
    List.pairwise_cons, List.mem_cons, List.mem_singleton, List.not_mem_nil] at hc
  have hle := hc.1 ⟨histGoodOutcome, similarityOfDistance (21/100)⟩ (by simp)
  norm_num [claimAdjustedScore, similarityOfDistance, pyRound1, roundHE,
    histGoodOutcome, histBadOutcome] at hle

/-- C1 (amended): the retriever applies no outcome penalty at all.  Its
output lists the index hits in index order; the surfaced
`similarity_score` is the pure distance conversion
`max(0, round(100*(1-dist), 1))` — in particular a hit at distance 0.2
surfaces raw similarity 80 — and rewriting every historical event's
outcome fields changes neither the scores nor their order. -/
theorem retrieval_no_penalty_amended (query : ℕ → List (HistoricalEvent × ℚ)) (k : ℕ) :
    (((RAG.mk k).retrieve query).map Candidate.historical_event =
        (query (k * 2)).map Prod.fst)
      ∧ (((RAG.mk k).retrieve query).map Candidate.similarity_score =
          (query (k * 2)).map (fun p => max 0 (pyRound1 (100 * (1 - p.2)))))
      ∧ (∀ g : HistoricalEvent → HistoricalEvent,
          ((RAG.mk k).retrieve (fun n => (query n).map (fun p => (g p.1, p.2)))).map
              Candidate.similarity_score =
            ((RAG.mk k).retrieve query).map Candidate.similarity_score)
      ∧ similarityOfDistance (1/5) = 80 := by
  refine ⟨?_, ?_, ?_, ?_⟩
  · simp [RAG.retrieve]
  · simp [RAG.retrieve, similarityOfDistance]
  · intro g
    simp [RAG.retrieve]
  · norm_num [similarityOfDistance, pyRound1, roundHE]

/-! ### C2 — result count and ordering -/

/-- C2 counterexample: a retriever with top-K parameter 1 can return 2
candidates (it asks the index for `top_n * 2` results and keeps them
all), refuting the at-most-K bound even for an index satisfying the
length contract. -/
theorem retrieval_topk_counterexample :
    ¬ (∀ query : ℕ → List (HistoricalEvent × ℚ),
        (∀ n, (query n).length ≤ n) →
        ((RAG.mk 1).retrieve query).length ≤ 1) := by
  intro h
  have hc := h penaltyQuery penaltyQuery_length
  simp [RAG.retrieve, penaltyQuery] at hc

/-- C2 (amended): a retriever with top-K parameter K returns at most
2·K candidates (the index is asked for 2·K results and none are
discarded), each carrying the converted raw similarity alongside its
historical event in unchanged index order, so when the index returns
distances in ascending order the candidates are sorted descending by
raw similarity; no adjusted score exists. -/
theorem retrieval_topk_amended (query : ℕ → List (HistoricalEvent × ℚ)) (k : ℕ)
    (hlen : ∀ n, (query n).length ≤ n) :
    ((RAG.mk k).retrieve query).length ≤ 2 * k
      ∧ ((query (k * 2)).Pairwise (fun p q => p.2 ≤ q.2) →
          ((RAG.mk k).retrieve query).Pairwise
            (fun a b => b.similarity_score ≤ a.similarity_score)) := by
  constructor
  · have := hlen (k * 2)
    simpa [RAG.retrieve, Nat.mul_comm] using this
  · intro hp
    unfold RAG.retrieve
    rw [List.pairwise_map]
    refine hp.imp ?_
    intro p q hpq
    exact max_le_max (le_refl 0) (pyRound1_mono (by linarith))

/-- C2 witness at the concrete two-hit index oracle. -/
theorem retrieval_topk_witness :
    ((RAG.mk 1).retrieve penaltyQuery).length ≤ 2 * 1 ∧
      ((RAG.mk 1).retrieve penaltyQuery).Pairwise
        (fun a b => b.similarity_score ≤ a.similarity_score) :=
  ⟨(retrieval_topk_amended penaltyQuery 1 penaltyQuery_length).1,
   (retrieval_topk_amended penaltyQuery 1 penaltyQuery_length).2 (penaltyQuery_sorted 2)⟩

/-! ### C3 — similarity bounds, but no min–max rescaling -/

theorem similarityOfDistance_nonneg (d : ℚ) : 0 ≤ similarityOfDistance d :=
  le_max_left 0 _

theorem similarityOfDistance_le_100 {d : ℚ} (h : 0 ≤ d) :
    similarityOfDistance d ≤ 100 := by
  unfold similarityOfDistance
  have h1 : (100 : ℚ) * (1 - d) ≤ 100 := by nlinarith
  have h2 := pyRound1_mono h1
  have h3 : pyRound1 (100 : ℚ) = 100 := by simpa using pyRound1_intCast 100
  rw [h3] at h2
  exact max_le (by norm_num) h2

/-- An index oracle whose two hits sit at distances 0.5 and 0.6:
the fixed conversion surfaces similarities 50 and 40, so the maximum
similarity in the returned set is nowhere near 100. -/
def flatQuery : ℕ → List (HistoricalEvent × ℚ) :=
  fun n => ((histGoodOutcome, 1/2) :: (histBadOutcome, 3/5) :: []).take n

/-- C3 counterexample: the conversion is a fixed affine map of the
distance, not a per-corpus min–max rescaling.  For a non-degenerate
corpus (two distinct non-negative distances) the maximum surfaced
similarity is 50, so no candidate maps near 100. -/
theorem minmax_rescaling_counterexample :
    ¬ (∀ query : ℕ → List (HistoricalEvent × ℚ),
        (∀ n, ∀ p ∈ query n, 0 ≤ p.2) →
        (∃ p ∈ query (6 * 2), ∃ q ∈ query (6 * 2), p.2 ≠ q.2) →
        (RAG.mk 6).retrieve query ≠ [] →
        ∃ c ∈ (RAG.mk 6).retrieve query, 90 ≤ c.similarity_score) := by
  intro h
  have hnn : ∀ n, ∀ p ∈ flatQuery n, 0 ≤ p.2 := by
    intro n p hp
    have hp2 := List.mem_of_mem_take hp
    simp only [List.mem_cons, List.not_mem_nil, or_false] at hp2
    rcases hp2 with rfl | rfl <;> norm_num
  have hdistinct : ∃ p ∈ flatQuery (6 * 2), ∃ q ∈ flatQuery (6 * 2), p.2 ≠ q.2 := by
    refine ⟨(histGoodOutcome, 1/2), by simp [flatQuery], (histBadOutcome, 3/5),
      by simp [flatQuery], by norm_num⟩
  have hne : (RAG.mk 6).retrieve flatQuery ≠ [] := by
    simp [RAG.retrieve, flatQuery]
  obtain ⟨c, hc, hge⟩ := h flatQuery hnn hdistinct hne
  simp only [RAG.retrieve, flatQuery, List.take, List.map_cons, List.map_nil,
    List.mem_cons, List.mem_singleton, List.not_mem_nil, or_false] at hc
  rcases hc with hc | hc <;> subst hc <;>
    norm_num [similarityOfDistance, pyRound1, roundHE] at hge

/-- C3 (amended): every surfaced similarity lies in [0, 100] whenever
the index's distances are non-negative (as cosine distances are); the
lower bound needs no hypothesis.  The conversion involves no division,
so an all-equal-similarity corpus raises no error, but it is a fixed
pointwise map, not a per-corpus min–max rescaling. -/
theorem similarity_bounds_amended (query : ℕ → List (HistoricalEvent × ℚ)) (k : ℕ)
    (hd : ∀ p ∈ query (k * 2), 0 ≤ p.2) :
    ∀ c ∈ (RAG.mk k).retrieve query,
      0 ≤ c.similarity_score ∧ c.similarity_score ≤ 100 := by
  intro c hc
  unfold RAG.retrieve at hc
  rw [List.mem_map] at hc
  obtain ⟨p, hp, rfl⟩ := hc
  exact ⟨similarityOfDistance_nonneg p.2, similarityOfDistance_le_100 (hd p hp)⟩

/-- C3 witness: the bounds hold for a concrete retrieved candidate of
the concrete index oracle. -/
theorem similarity_bounds_witness :
    0 ≤ similarityOfDistance (1/2) ∧ similarityOfDistance (1/2) ≤ 100 := by
  have h := similarity_bounds_amended flatQuery 6
    (by
      intro p hp
      have hp2 := List.mem_of_mem_take hp
      simp only [List.mem_cons, List.not_mem_nil, or_false] at hp2
      rcases hp2 with rfl | rfl <;> norm_num)
    ⟨histGoodOutcome, similarityOfDistance (1/2)⟩
    (by simp [RAG.retrieve, flatQuery])
  exact h

/-! ### Stability of the Python sort (insertion sort on `byScoreDesc`) -/

theorem filter_orderedInsert_score (s : ℚ) (a : Recommendation)
    (l : List Recommendation) :
    (l.orderedInsert byScoreDesc a).filter (fun x => decide (x.ranking_score = s)) =
      if a.ranking_score = s
      then a :: l.filter (fun x => decide (x.ranking_score = s))
      else l.filter (fun x => decide (x.ranking_score = s)) := by
  induction l with
  | nil =>
    by_cases h : a.ranking_score = s
    · rw [if_pos h]
      simp [h]
    · rw [if_neg h]
      simp [h]
  | cons b l ih =>
    simp only [List.orderedInsert]
    by_cases hab : byScoreDesc a b
    · rw [if_pos hab]
      by_cases h : a.ranking_score = s
      · rw [if_pos h]
        simp [List.filter_cons, h]
      · rw [if_neg h]
        simp [List.filter_cons, h]
    · rw [if_neg hab]
      have hlt : a.ranking_score < b.ranking_score := lt_of_not_le hab
      by_cases h : a.ranking_score = s
      · have hbs : ¬ b.ranking_score = s := fun he =>
          (ne_of_lt hlt) (h.trans he.symm)
        rw [if_pos h]
        simp only [List.filter_cons, ih, if_pos h]
        simp [hbs]
      · rw [if_neg h]
        simp only [List.filter_cons, ih, if_neg h]

theorem filter_insertionSort_score (s : ℚ) (l : List Recommendation) :
    (l.insertionSort byScoreDesc).filter (fun x => decide (x.ranking_score = s)) =
      l.filter (fun x => decide (x.ranking_score = s)) := by
  induction l with
  | nil => rfl
  | cons a l ih =>
    simp only [List.insertionSort]
    rw [filter_orderedInsert_score]
    by_cases h : a.ranking_score = s
    · rw [if_pos h, ih, List.filter_cons, if_pos (by simp [h])]
    · rw [if_neg h, ih, List.filter_cons, if_neg (by simp [h])]

theorem length_filterMap_eq_length_filter {α β : Type} (f : α → Option β)
    (l : List α) :
    (l.filterMap f).length = (l.filter (fun a => (f a).isSome)).length := by
  induction l with
  | nil => rfl
  | cons a l ih => cases hfa : f a <;>
      simp [List.filterMap_cons, hfa, List.filter_cons, ih]

/-! ### C4 — hybrid score formula, ordering, truncation -/

/-- C4: on every successful run, each surviving candidate's ranking
score is `round₁(0.45·agent + 0.45·raw_similarity + 0.10·feedback)`
with agent weights capacity .25, amenity .20, location .15, cost .25,
special .15, each recommendation originating from a retrieval candidate
through its resolved venue; the output is the stable descending sort of
the scored list truncated to top-N, it is sorted descending by
`ranking_score`, ties keep retrieval order (the sort preserves, score
level by score level, the pre-sort order), and its length is exactly
`min top_n available`. -/
theorem hybrid_ranking_formula (polarity : String → ℚ) (venues : List Venue)
    (current_requests : List EventRequest)
    (queryOf : EventRequest → ℕ → List (HistoricalEvent × ℚ))
    (event_id : String) (top_n : ℕ) (out : List Recommendation)
    (hok : recommend polarity venues current_requests queryOf event_id top_n =
      .ok out) :
    ∃ request, current_requests.find? (fun r => r.event_id == event_id) = some request ∧
      (∀ rec ∈ scoreCandidates polarity venues request
          ((RAG.mk 6).retrieve (queryOf request)),
        (rec.ranking_score =
          pyRound1 (0.45 * (0.25 * (rec.capacity_score : ℚ) +
              0.20 * (rec.amenity_score : ℚ) + 0.15 * (rec.location_score : ℚ) +
              0.25 * (rec.cost_score : ℚ) + 0.15 * (rec.special_score : ℚ)) +
            0.45 * rec.rag_similarity_score + 0.10 * rec.feedback_adjustment)) ∧
        ∃ item ∈ (RAG.mk 6).retrieve (queryOf request),
          ∃ venue ∈ venues, resolveVenue venues item = some venue ∧
            rec = mkRecommendation polarity request venue item) ∧
      out = ((scoreCandidates polarity venues request
          ((RAG.mk 6).retrieve (queryOf request))).insertionSort byScoreDesc).take top_n ∧
      out.Sorted byScoreDesc ∧
      (∀ s : ℚ, ((scoreCandidates polarity venues request
            ((RAG.mk 6).retrieve (queryOf request))).insertionSort byScoreDesc).filter
            (fun x => decide (x.ranking_score = s)) =
          (scoreCandidates polarity venues request
            ((RAG.mk 6).retrieve (queryOf request))).filter
            (fun x => decide (x.ranking_score = s))) ∧
      out.length = min top_n (scoreCandidates polarity venues request
        ((RAG.mk 6).retrieve (queryOf request))).length := by
  unfold recommend at hok
  cases hfind : current_requests.find? (fun r => r.event_id == event_id) with
  | none =>
    rw [hfind] at hok
    exact absurd hok (by simp)
  | some request =>
    rw [hfind] at hok
    simp only at hok
    split_ifs at hok with h1 h2
    simp only [Except.ok.injEq] at hok
    refine ⟨request, rfl, ?_, hok.symm, ?_, fun s => filter_insertionSort_score s _, ?_⟩
    · intro rec hrec
      rw [scoreCandidates, List.mem_filterMap] at hrec
      obtain ⟨item, hitem, hf⟩ := hrec
      rw [Option.map_eq_some'] at hf
      obtain ⟨venue, hv, hmk⟩ := hf
      subst hmk
      constructor
      · simp only [mkRecommendation]
        exact congrArg pyRound1 (by ring)
      · exact ⟨item, hitem, venue, List.mem_of_find?_eq_some hv, hv, rfl⟩
    · rw [hok.symm]
      exact List.Pairwise.sublist (List.take_sublist _ _)
        (List.sorted_insertionSort byScoreDesc _)
    · rw [hok.symm, List.length_take, List.length_insertionSort]

/-! ### C5 — not-found surfaced exactly for the three conditions -/

/-- C5: the handler fails — always with an explicit error, never an
empty success — exactly when the event id is unknown
(`requestNotFound`), the retriever returned nothing
(`noSimilarEvents`), or no candidate survived venue resolution
(`noSuitableVenues`, equivalently every retrieved candidate's venue is
unresolvable); a candidate with an unresolvable `venue_id` is silently
dropped: the scored list has exactly one entry per resolvable
candidate and the drop never surfaces an error. -/
theorem notfound_error_characterization (polarity : String → ℚ) (venues : List Venue)
    (current_requests : List EventRequest)
    (queryOf : EventRequest → ℕ → List (HistoricalEvent × ℚ))
    (event_id : String) (top_n : ℕ) :
    (recommend polarity venues current_requests queryOf event_id top_n =
        .error .requestNotFound ↔
      current_requests.find? (fun r => r.event_id == event_id) = none)
      ∧ (∀ request,
          current_requests.find? (fun r => r.event_id == event_id) = some request →
          ((recommend polarity venues current_requests queryOf event_id top_n =
              .error .noSimilarEvents ↔
            (RAG.mk 6).retrieve (queryOf request) = [])
          ∧ (recommend polarity venues current_requests queryOf event_id top_n =
              .error .noSuitableVenues ↔
            ((RAG.mk 6).retrieve (queryOf request) ≠ [] ∧
              scoreCandidates polarity venues request
                ((RAG.mk 6).retrieve (queryOf request)) = []))
          ∧ (scoreCandidates polarity venues request
                ((RAG.mk 6).retrieve (queryOf request)) = [] ↔
              ∀ item ∈ (RAG.mk 6).retrieve (queryOf request),
                resolveVenue venues item = none)
          ∧ (scoreCandidates polarity venues request
                ((RAG.mk 6).retrieve (queryOf request))).length =
              (((RAG.mk 6).retrieve (queryOf request)).filter
                (fun item => (resolveVenue venues item).isSome)).length)) := by
  constructor
  · unfold recommend
    cases hfind : current_requests.find? (fun r => r.event_id == event_id) with
    | none => simp
    | some request =>
      simp only
      constructor
      · intro h
        split_ifs at h with h1 h2
        · exact RecError.noConfusion (Except.error.inj h)
        · exact RecError.noConfusion (Except.error.inj h)
      · intro h
        exact Option.noConfusion h
  · intro request hfind
    have hrec : recommend polarity venues current_requests queryOf event_id top_n =
        (if ((RAG.mk 6).retrieve (queryOf request)).isEmpty then
          Except.error RecError.noSimilarEvents
        else if (scoreCandidates polarity venues request
            ((RAG.mk 6).retrieve (queryOf request))).isEmpty then
          Except.error RecError.noSuitableVenues
        else Except.ok (((scoreCandidates polarity venues request
            ((RAG.mk 6).retrieve (queryOf request))).insertionSort
              byScoreDesc).take top_n)) := by
      unfold recommend
      rw [hfind]
    refine ⟨?_, ?_, ?_, ?_⟩
    · rw [hrec]
      constructor
      · intro h
        split_ifs at h with h1 h2
        · exact List.isEmpty_iff.1 h1
        · exact RecError.noConfusion (Except.error.inj h)
      · intro h
        rw [if_pos (List.isEmpty_iff.2 h)]
    · rw [hrec]
      constructor
      · intro h
        split_ifs at h with h1 h2
        · exact RecError.noConfusion (Except.error.inj h)
        · exact ⟨fun hEq => h1 (List.isEmpty_iff.2 hEq), List.isEmpty_iff.1 h2⟩
      · intro ⟨hne, hsc⟩
        rw [if_neg (fun h1 => hne (List.isEmpty_iff.1 h1)),
          if_pos (List.isEmpty_iff.2 hsc)]
    · rw [scoreCandidates, List.filterMap_eq_nil_iff]
      constructor
      · intro h item hitem
        have := h item hitem
        rwa [Option.map_eq_none'] at this
      · intro h item hitem
        rw [Option.map_eq_none']
        exact h item hitem
    · rw [scoreCandidates, length_filterMap_eq_length_filter]
      rw [List.filter_congr (fun item _ => Option.isSome_map')]

/-! ### Concrete end-to-end pipeline fixtures -/

def polarityZero : String → ℚ := fun _ => 0

def requestC : EventRequest := { baseRequest with event_id := "E1" }

def requestsC : List EventRequest := [requestC]

def venueV1 : Venue := { baseVenue with venue_id := "V1", name := "Hall A" }

def venueV2 : Venue := { baseVenue with venue_id := "V2", name := "Hall B" }

def venuesC : List Venue := [venueV1, venueV2]

def histV1a : HistoricalEvent :=
  { event_id := "HA", venue_id := some "V1", overall_satisfaction := 4,
    would_rebook := true, positive_feedback := [], negative_feedback := [] }

def histV1b : HistoricalEvent := { histV1a with event_id := "HB" }

def histV2 : HistoricalEvent := { histV1a with event_id := "HC", venue_id := some "V2" }

/-- Index oracle: two distinct historical events held at venue V1
(distances 0 and 0.1) and one at V2 (distance 0.9). -/
def queryC : EventRequest → ℕ → List (HistoricalEvent × ℚ) :=
  fun _ _ => (histV1a, 0) :: (histV1b, 1/10) :: (histV2, 9/10) :: []

def candV1a : Candidate := ⟨histV1a, 100⟩

def candV1b : Candidate := ⟨histV1b, 90⟩

def candV2 : Candidate := ⟨histV2, 10⟩

def recV1a : Recommendation :=
  { venue_id := "V1", venue_name := "Hall A", ranking_score := 259/5,
    capacity_score := 0, amenity_score := 0, location_score := 100,
    cost_score := 0, special_score := 0, feedback_adjustment := 0,
    rag_similarity_score := 100, historical_event := histV1a }

def recV1b : Recommendation :=
  { venue_id := "V1", venue_name := "Hall A", ranking_score := 236/5,
    capacity_score := 0, amenity_score := 0, location_score := 100,
    cost_score := 0, special_score := 0, feedback_adjustment := 0,
    rag_similarity_score := 90, historical_event := histV1b }

def recV2 : Recommendation :=
  { venue_id := "V2", venue_name := "Hall B", ranking_score := 56/5,
    capacity_score := 0, amenity_score := 0, location_score := 100,
    cost_score := 0, special_score := 0, feedback_adjustment := 0,
    rag_similarity_score := 10, historical_event := histV2 }

theorem retrieveC_eval :
    (RAG.mk 6).retrieve (queryC requestC) = [candV1a, candV1b, candV2] := by
  simp only [RAG.retrieve, queryC, List.map_cons, List.map_nil,
    candV1a, candV1b, candV2]
  norm_num [similarityOfDistance, pyRound1, roundHE, Candidate.mk.injEq]

theorem mkRecV1a_eval :
    mkRecommendation polarityZero requestC venueV1 candV1a = recV1a := by
  norm_num [mkRecommendation, recV1a, CapacityAgent.analyze, AmenityAgent.analyze,
    LocationAgent.analyze, CostAgent.analyze, SpecialRequirementAgent.analyze,
    FeedbackAgent.analyze, pyInt, pyRound1, roundHE, polarityZero,
    requestC, baseRequest, venueV1, baseVenue, candV1a, histV1a,
    Recommendation.mk.injEq]

theorem mkRecV1b_eval :
    mkRecommendation polarityZero requestC venueV1 candV1b = recV1b := by
  norm_num [mkRecommendation, recV1a, recV1b, CapacityAgent.analyze,
    AmenityAgent.analyze, LocationAgent.analyze, CostAgent.analyze,
    SpecialRequirementAgent.analyze, FeedbackAgent.analyze, pyInt, pyRound1,
    roundHE, polarityZero, requestC, baseRequest, venueV1, baseVenue,
    candV1b, histV1a, histV1b, Recommendation.mk.injEq]

theorem mkRecV2_eval :
    mkRecommendation polarityZero requestC venueV2 candV2 = recV2 := by
  norm_num [mkRecommendation, recV1a, recV2, CapacityAgent.analyze,
    AmenityAgent.analyze, LocationAgent.analyze, CostAgent.analyze,
    SpecialRequirementAgent.analyze, FeedbackAgent.analyze, pyInt, pyRound1,
    roundHE, polarityZero, requestC, baseRequest, venueV2, baseVenue,
    candV2, histV1a, histV2, Recommendation.mk.injEq]

theorem scoredC_eval :
    scoreCandidates polarityZero venuesC requestC [candV1a, candV1b, candV2] =
      [recV1a, recV1b, recV2] := by
  have h1 : resolveVenue venuesC candV1a = some venueV1 := by rfl
  have h2 : resolveVenue venuesC candV1b = some venueV1 := by rfl
  have h3 : resolveVenue venuesC candV2 = some venueV2 := by rfl
  simp only [scoreCandidates, List.filterMap_cons, List.filterMap_nil,
    h1, h2, h3, Option.map_some']
  rw [mkRecV1a_eval, mkRecV1b_eval, mkRecV2_eval]

theorem sortedC : List.Sorted byScoreDesc [recV1a, recV1b, recV2] := by
  refine List.Pairwise.cons ?_ (List.Pairwise.cons ?_ ?_)
  · intro b hb
    rcases List.mem_cons.1 hb with rfl | hb
    · norm_num [byScoreDesc, recV1a, recV1b]
    · rcases List.mem_singleton.1 hb with rfl
      norm_num [byScoreDesc, recV1a, recV2]
  · intro b hb
    rcases List.mem_singleton.1 hb with rfl
    norm_num [byScoreDesc, recV1b, recV2]
  · refine List.Pairwise.cons ?_ List.Pairwise.nil
    intro b hb
    exact absurd hb (List.not_mem_nil b)

/-- Full evaluation of the endpoint on the fixture: the two V1-backed
recommendations outrank the V2 one and fill the entire top-2 output. -/
theorem recommendC_eval :
    recommend polarityZero venuesC requestsC queryC "E1" 2 =
      .ok [recV1a, recV1b] := by
  have hfind : requestsC.find? (fun r => r.event_id == "E1") = some requestC := by rfl
  unfold recommend
  rw [hfind]
  simp only [retrieveC_eval, scoredC_eval]
  rw [List.Sorted.insertionSort_eq sortedC]
  rfl

/-! ### C10 — no deduplication by venue -/

/-- C10: the recommendation list is not deduplicated by venue.  On a
concrete corpus where two distinct historical events were both held at
venue V1, the top-2 output consists of two separate Recommendations for
V1 — each counted toward the top-N limit, pushing the V2 candidate
out. -/
theorem no_venue_deduplication :
    recommend polarityZero venuesC requestsC queryC "E1" 2 = .ok [recV1a, recV1b]
      ∧ recV1a.venue_id = recV1b.venue_id
      ∧ recV1a.historical_event.event_id ≠ recV1b.historical_event.event_id := by
  refine ⟨recommendC_eval, rfl, ?_⟩
  simp [recV1a, recV1b, histV1a, histV1b]

/-- C4 witness: the concrete two-element output of the fixture run is
sorted descending and has length `min 2 3`. -/
theorem hybrid_ranking_witness :
    ([recV1a, recV1b] : List Recommendation).Sorted byScoreDesc ∧
      ([recV1a, recV1b] : List Recommendation).length =
        min 2 (scoreCandidates polarityZero venuesC requestC
          ((RAG.mk 6).retrieve (queryC requestC))).length := by
  obtain ⟨req, hfind, hforall, hout, hsorted, hstable, hlen⟩ :=
    hybrid_ranking_formula polarityZero venuesC requestsC queryC "E1" 2
      [recV1a, recV1b] recommendC_eval
  have h0 : requestsC.find? (fun r => r.event_id == "E1") = some requestC := rfl
  have hreq : requestC = req := Option.some.inj (h0.symm.trans hfind)
  subst hreq
  exact ⟨hsorted, hlen⟩

def queryNone : EventRequest → ℕ → List (HistoricalEvent × ℚ) := fun _ _ => []

/-- C5 witness: each of the three failure conditions produces its
distinct explicit error on concrete inputs (unknown id; empty
retrieval; empty venue corpus so nothing survives resolution). -/
theorem notfound_witness :
    recommend polarityZero venuesC requestsC queryC "E9" 2 =
        .error .requestNotFound
      ∧ recommend polarityZero venuesC requestsC queryNone "E1" 2 =
        .error .noSimilarEvents
      ∧ recommend polarityZero [] requestsC queryC "E1" 2 =
        .error .noSuitableVenues := by
  refine ⟨?_, ?_, ?_⟩
  · exact (notfound_error_characterization polarityZero venuesC requestsC
      queryC "E9" 2).1.mpr rfl
  · exact ((notfound_error_characterization polarityZero venuesC requestsC
      queryNone "E1" 2).2 requestC rfl).1.mpr rfl
  · exact ((notfound_error_characterization polarityZero [] requestsC
      queryC "E1" 2).2 requestC rfl).2.1.mpr
      ⟨by simp [RAG.retrieve, queryC], rfl⟩
